import Mathlib

/-!
Verification of the `anonymous_survey` Solana/Anchor program
(`src/blockchain/anonymous-survey/programs/anonymous-survey/src/lib.rs`).

Shallow embedding conventions:
- `Pubkey` is an opaque principal identifier, modelled as `Nat`.
- `[u8; 32]` digests and `[u8; 256]` ciphertext blobs are byte lists.
- `Clock::get()?.unix_timestamp` is modelled by a `now : Int` parameter;
  the Solana runtime guarantees the clock sysvar, so the call is total.
- Each instruction handler becomes a pure function from the pre-state of
  the mutated account (plus the signer's key and the instruction
  arguments) to a `TxResult`: `ok` carries the new account state, `err e s`
  carries an Anchor error code together with the account state at the
  point of the early `require!` return, and `abort s` models a Rust
  `unwrap` failure on `None` — the whole transaction aborts (no error
  code from the program's enum is surfaced) with `s` the in-memory state
  at the point of failure.  Solana commits account writes only on `ok`;
  `commitTx` expresses that rollback.
- Anchor deserializes `Vec` arguments with a Borsh `u32` length prefix,
  so any vector an instruction receives has fewer than 2^32 elements;
  reachability hypotheses record that wire-format bound.
-/

/-- Opaque principal identifier (Solana `Pubkey`). -/
abbrev Pubkey := Nat

/-- A 32-byte digest (`[u8; 32]`), as a byte list. -/
abbrev Digest := List Nat

/-- A 256-byte encrypted response (`[u8; 256]`), as a byte list. -/
abbrev Payload := List Nat

/-- The all-zero digest `[0; 32]`. -/
def zeroDigest : Digest := List.replicate 32 0

/-- Largest value representable by a `u32` counter. -/
def u32Max : Nat := 4294967295

/-- Rust `u32::checked_add`: `some` of the sum when it fits, else `none`. -/
def checkedAddU32 (a b : Nat) : Option Nat :=
  if a + b ≤ u32Max then some (a + b) else none

/-- The program's error enum `CampaignError` from `lib.rs` (all eight
variants; note there is no overflow-related variant). -/
inductive CampaignError where
  | campaignAlreadyPublished
  | campaignIdTooLong
  | semesterTooLong
  | invalidCampaignType
  | publicKeyTooLong
  | unauthorized
  | noResponsesSubmitted
  | mismatchedDataLength
deriving DecidableEq

/-- Outcome of one instruction on the account it mutates.  `err` and
`abort` carry the in-memory account state at the failure point; the
runtime discards it (see `commitTx`). -/
inductive TxResult (α : Type) where
  | ok : α → TxResult α
  | err : CampaignError → α → TxResult α
  | abort : α → TxResult α
deriving DecidableEq

/-- Solana transaction semantics: account writes persist only when the
instruction succeeds; on an error return or an abort the pre-state is
kept. -/
def commitTx {α : Type} (pre : α) : TxResult α → α
  | TxResult.ok s => s
  | TxResult.err _ _ => pre
  | TxResult.abort _ => pre

/-- The `SurveyCampaign` account (`#[account]` struct in `lib.rs`). -/
structure SurveyCampaign where
  authority : Pubkey
  campaign_id : String
  semester : String
  campaign_type : Nat
  total_responses : Nat
  created_at : Int
  updated_at : Int
  is_published : Bool
  merkle_root : Digest
  encrypted_responses : List Payload
  commitments : List Digest
  blind_signature_public_key : List Nat
  encryption_public_key : List Nat
deriving DecidableEq

/-- `SurveyCampaign::BASE_LEN`: fixed account size without the dynamic
vectors, as the field-by-field sum written in the source (772 bytes). -/
def SurveyCampaign.BASE_LEN : Nat :=
  32 + (4 + 50) + (4 + 20) + 1 + 4 + 8 + 8 + 1 + 32 + 4 + 4 + (4 + 300) + (4 + 300)

/-- `SurveyCampaign::calculate_size_for_responses`: pre-publish size for
`num_responses` entries (256-byte encrypted response + 32-byte commitment
each). -/
def SurveyCampaign.calculate_size_for_responses (num_responses : Nat) : Nat :=
  SurveyCampaign.BASE_LEN + num_responses * (256 + 32)

/-- `SurveyCampaign::calculate_size_after_publishing`: post-publish size
(encrypted responses cleared, only 32-byte commitments remain). -/
def SurveyCampaign.calculate_size_after_publishing (num_responses : Nat) : Nat :=
  SurveyCampaign.BASE_LEN + num_responses * 32

/-- `SurveyCampaign::LEN`: initial size with 0 responses. -/
def SurveyCampaign.LEN : Nat := SurveyCampaign.BASE_LEN

/-- The `create_campaign` instruction.  String lengths are `String.length`
(the campaign id and semester are ASCII identifiers, where Rust's byte
`len()` coincides with the character count).  Returns the freshly
initialized account or the first failing `require!`'s error. -/
def create_campaign (now : Int) (key : Pubkey) (campaign_id semester : String)
    (campaign_type : Nat)
    (blind_signature_public_key encryption_public_key : List Nat) :
    Except CampaignError SurveyCampaign :=
  if campaign_id.length > 50 then Except.error CampaignError.campaignIdTooLong
  else if semester.length > 20 then Except.error CampaignError.semesterTooLong
  else if campaign_type > 1 then Except.error CampaignError.invalidCampaignType
  else if blind_signature_public_key.length > 300 then
    Except.error CampaignError.publicKeyTooLong
  else if encryption_public_key.length > 300 then
    Except.error CampaignError.publicKeyTooLong
  else Except.ok
    { authority := key
      campaign_id := campaign_id
      semester := semester
      campaign_type := campaign_type
      total_responses := 0
      created_at := now
      updated_at := now
      is_published := false
      merkle_root := zeroDigest
      encrypted_responses := []
      commitments := []
      blind_signature_public_key := blind_signature_public_key
      encryption_public_key := encryption_public_key }

/-- The `submit_batch_responses` instruction: `require!` checks in source
order (not published, authority, matched lengths), then both vectors are
extended, then `total_responses` is bumped with `checked_add(...).unwrap()`
— the `as u32` cast is the `% 2^32` reduction, and the `unwrap` on `none`
aborts the transaction after the vectors were already extended in memory. -/
def submit_batch_responses (now : Int) (key : Pubkey) (campaign : SurveyCampaign)
    (commitments : List Digest) (encrypted_responses : List Payload) :
    TxResult SurveyCampaign :=
  if campaign.is_published then
    TxResult.err CampaignError.campaignAlreadyPublished campaign
  else if campaign.authority ≠ key then
    TxResult.err CampaignError.unauthorized campaign
  else if commitments.length ≠ encrypted_responses.length then
    TxResult.err CampaignError.mismatchedDataLength campaign
  else
    match checkedAddU32 campaign.total_responses
        (encrypted_responses.length % 4294967296) with
    | some total =>
        TxResult.ok { campaign with
          commitments := campaign.commitments ++ commitments
          encrypted_responses := campaign.encrypted_responses ++ encrypted_responses
          total_responses := total
          updated_at := now }
    | none =>
        TxResult.abort { campaign with
          commitments := campaign.commitments ++ commitments
          encrypted_responses := campaign.encrypted_responses ++ encrypted_responses }

/-- The `publish_campaign_results` instruction: checks authority first,
then not-already-published, then a nonzero response count; on success it
stores the off-chain Merkle root verbatim, marks the campaign published,
updates the timestamp and clears the encrypted responses (commitments are
kept). -/
def publish_campaign_results (now : Int) (key : Pubkey)
    (campaign : SurveyCampaign) (merkle_root : Digest) :
    TxResult SurveyCampaign :=
  if campaign.authority ≠ key then
    TxResult.err CampaignError.unauthorized campaign
  else if campaign.is_published then
    TxResult.err CampaignError.campaignAlreadyPublished campaign
  else if campaign.total_responses = 0 then
    TxResult.err CampaignError.noResponsesSubmitted campaign
  else
    TxResult.ok { campaign with
      merkle_root := merkle_root
      is_published := true
      updated_at := now
      encrypted_responses := [] }

/-- The `UniversityPerformance` account (`#[account]` struct in `lib.rs`). -/
structure UniversityPerformance where
  authority : Pubkey
  university_id : String
  total_campaigns : Nat
  created_at : Int
  updated_at : Int
  final_merkle_root : Digest
deriving DecidableEq

/-- `UniversityPerformance::BASE_LEN` as the field-by-field sum in the
source. -/
def UniversityPerformance.BASE_LEN : Nat := 32 + (4 + 50) + 4 + 8 + 8 + 32

/-- `UniversityPerformance::LEN`. -/
def UniversityPerformance.LEN : Nat := UniversityPerformance.BASE_LEN

/-- The `initialize_final_root` instruction (renamed `init_final_root`
here): no `require!` checks; fills every field of the fresh account, with
`total_campaigns = 0` and an all-zero final root. -/
def init_final_root (now : Int) (key : Pubkey) (university_id : String) :
    UniversityPerformance :=
  { authority := key
    university_id := university_id
    total_campaigns := 0
    created_at := now
    updated_at := now
    final_merkle_root := zeroDigest }

/-- The `update_final_merkle_root` instruction: authority check, then the
root is overwritten verbatim and the timestamp updated. -/
def update_final_merkle_root (now : Int) (key : Pubkey)
    (final_root : UniversityPerformance) (final_merkle_root : Digest) :
    TxResult UniversityPerformance :=
  if final_root.authority ≠ key then
    TxResult.err CampaignError.unauthorized final_root
  else
    TxResult.ok { final_root with
      final_merkle_root := final_merkle_root
      updated_at := now }

/-- Campaign states reachable through the program's three campaign
instructions, starting from a successful `create_campaign`.  The
`< 2^32` hypotheses on the batch vectors record the Borsh wire format:
Anchor length-prefixes every `Vec` argument with a `u32`. -/
inductive Reach : SurveyCampaign → Prop where
  | create (now : Int) (key : Pubkey) (cid sem : String) (ct : Nat)
      (bk ek : List Nat) (s : SurveyCampaign)
      (hc : create_campaign now key cid sem ct bk ek = Except.ok s) : Reach s
  | batch (s : SurveyCampaign) (now : Int) (key : Pubkey)
      (cs : List Digest) (ps : List Payload) (s' : SurveyCampaign)
      (hr : Reach s) (hcs : cs.length < 4294967296) (hps : ps.length < 4294967296)
      (hok : submit_batch_responses now key s cs ps = TxResult.ok s') : Reach s'
  | publish (s : SurveyCampaign) (now : Int) (key : Pubkey) (root : Digest)
      (s' : SurveyCampaign) (hr : Reach s)
      (hok : publish_campaign_results now key s root = TxResult.ok s') : Reach s'

/-- Aggregate-root states reachable through `init_final_root` and
`update_final_merkle_root`. -/
inductive ReachU : UniversityPerformance → Prop where
  | init (now : Int) (key : Pubkey) (uid : String) :
      ReachU (init_final_root now key uid)
  | update (f : UniversityPerformance) (now : Int) (key : Pubkey)
      (root : Digest) (f' : UniversityPerformance) (hr : ReachU f)
      (hok : update_final_merkle_root now key f root = TxResult.ok f') :
      ReachU f'

/-- The ledger collection invariant of claim C1. -/
def campaignInvariant (s : SurveyCampaign) : Prop :=
  s.total_responses = s.commitments.length ∧
  (s.is_published = false → s.encrypted_responses.length = s.commitments.length) ∧
  (s.is_published = true → s.encrypted_responses = [])

/-- Modelled from the spec: the error kinds of the single-response append
mode (`RecordFull`, `AlreadySealed`), an operation the spec describes but
that is absent from `src/`. -/
inductive SingleAppendError where
  | recordFull
  | alreadySealed
deriving DecidableEq

/-- Modelled from the spec: the small fixed cap on responses per record
enforced by single-response mode ("e.g. 10", matching the 10-entry
pre-allocation in `create_campaign`). -/
def maxResponsesPerRecord : Nat := 10

/-- Modelled from the spec: the single-response append operation
(`append_one`), absent from `src/`.  Open to any signer (the caller's key
is not checked); fails `AlreadySealed` on a sealed record, `RecordFull`
once the fixed cap is reached, and otherwise appends the one
commitment/payload pair. -/
def submit_response (now : Int) (_key : Pubkey) (campaign : SurveyCampaign)
    (commitment : Digest) (payload : Payload) :
    Except SingleAppendError SurveyCampaign :=
  if campaign.is_published then Except.error SingleAppendError.alreadySealed
  else if maxResponsesPerRecord ≤ campaign.total_responses then
    Except.error SingleAppendError.recordFull
  else Except.ok { campaign with
    commitments := campaign.commitments ++ [commitment]
    encrypted_responses := campaign.encrypted_responses ++ [payload]
    total_responses := campaign.total_responses + 1
    updated_at := now }

/-- A sample commitment digest. -/
def sampleDigest : Digest := List.replicate 32 7

/-- A sample encrypted payload. -/
def samplePayload : Payload := List.replicate 256 9

/-- The campaign produced by `create_campaign 0 1 "c" "s" 0 [] []`. -/
def s0 : SurveyCampaign :=
  { authority := 1
    campaign_id := "c"
    semester := "s"
    campaign_type := 0
    total_responses := 0
    created_at := 0
    updated_at := 0
    is_published := false
    merkle_root := zeroDigest
    encrypted_responses := []
    commitments := []
    blind_signature_public_key := []
    encryption_public_key := [] }

/-- `s0` after one authorized batch of one response. -/
def s1 : SurveyCampaign :=
  { s0 with
    total_responses := 1
    encrypted_responses := [samplePayload]
    commitments := [sampleDigest] }

/-- `s1` published with the all-zero root supplied by the authority. -/
def sealedZeroRoot : SurveyCampaign :=
  { s1 with
    is_published := true
    encrypted_responses := [] }

/-- An unsealed campaign whose `u32` response counter is at its maximum. -/
def fullSample : SurveyCampaign := { s0 with total_responses := u32Max }

/-- The aggregate-root account produced by `init_final_root 0 1 "u"`. -/
def uBase : UniversityPerformance := init_final_root 0 1 "u"

/-- `uBase` after an authorized root update at time 5. -/
def uNext : UniversityPerformance :=
  { uBase with final_merkle_root := sampleDigest, updated_at := 5 }

set_option maxRecDepth 4000

/-- Claim C2: `submit_batch_responses` fails `AlreadySealed`
(`CampaignAlreadyPublished`) on a sealed record; on an unsealed record it
fails `Unauthorized` for a non-authority caller; with the authority it
fails `MismatchedLengths` (`MismatchedDataLength`) when the two arrays
differ in length; otherwise, absent counter overflow, it succeeds,
appending both arrays at the end preserving order, incrementing
`total_responses` by the batch length and setting `updated_at`.  The
`ps.length < 2^32` hypothesis is the Borsh wire-format bound on `Vec`
arguments. -/
theorem submit_batch_contract (now : Int) (key : Pubkey) (s : SurveyCampaign)
    (cs : List Digest) (ps : List Payload) :
    (s.is_published = true →
      submit_batch_responses now key s cs ps =
        TxResult.err CampaignError.campaignAlreadyPublished s) ∧
    (s.is_published = false → s.authority ≠ key →
      submit_batch_responses now key s cs ps =
        TxResult.err CampaignError.unauthorized s) ∧
    (s.is_published = false → s.authority = key → cs.length ≠ ps.length →
      submit_batch_responses now key s cs ps =
        TxResult.err CampaignError.mismatchedDataLength s) ∧
    (s.is_published = false → s.authority = key → cs.length = ps.length →
      ps.length < 4294967296 → s.total_responses + ps.length ≤ u32Max →
      submit_batch_responses now key s cs ps = TxResult.ok
        { s with commitments := s.commitments ++ cs
                 encrypted_responses := s.encrypted_responses ++ ps
                 total_responses := s.total_responses + ps.length
                 updated_at := now }) := by
  refine ⟨fun h1 => ?_, fun h1 h2 => ?_, fun h1 h2 h3 => ?_,
    fun h1 h2 h3 h4 h5 => ?_⟩
  · simp [submit_batch_responses, h1]
  · simp [submit_batch_responses, h1, h2]
  · simp [submit_batch_responses, h1, h2, h3]
  · simp [submit_batch_responses, checkedAddU32, h1, h2, h3,
      Nat.mod_eq_of_lt h4, h5]

/-- Claim C2 witness: each of the four cases at a concrete input. -/
theorem submit_batch_contract_witness :
    submit_batch_responses 0 1 sealedZeroRoot [] [] =
      TxResult.err CampaignError.campaignAlreadyPublished sealedZeroRoot ∧
    submit_batch_responses 0 2 s0 [] [] =
      TxResult.err CampaignError.unauthorized s0 ∧
    submit_batch_responses 0 1 s0 [sampleDigest] [] =
      TxResult.err CampaignError.mismatchedDataLength s0 ∧
    submit_batch_responses 0 1 s0 [sampleDigest] [samplePayload] = TxResult.ok
      { s0 with commitments := s0.commitments ++ [sampleDigest]
                encrypted_responses := s0.encrypted_responses ++ [samplePayload]
                total_responses := s0.total_responses + 1
                updated_at := 0 } :=
  ⟨(submit_batch_contract 0 1 sealedZeroRoot [] []).1 rfl,
   (submit_batch_contract 0 2 s0 [] []).2.1 rfl (by decide),
   (submit_batch_contract 0 1 s0 [sampleDigest] []).2.2.1 rfl rfl (by decide),
   (submit_batch_contract 0 1 s0 [sampleDigest] [samplePayload]).2.2.2 rfl rfl
     rfl (by decide) (by decide)⟩

/-- Claim C3: on an unsealed record with a positive response count and the
authority as caller, `publish_campaign_results` succeeds, stores the
supplied root verbatim, marks the record published, clears the encrypted
responses, keeps `commitments` unchanged and sets `updated_at`. -/
theorem publish_success_postcondition (now : Int) (key : Pubkey)
    (s : SurveyCampaign) (root : Digest) (hpub : s.is_published = false)
    (hn : 0 < s.total_responses) (hk : s.authority = key) :
    publish_campaign_results now key s root = TxResult.ok
      { s with merkle_root := root
               is_published := true
               encrypted_responses := []
               updated_at := now } := by
  simp [publish_campaign_results, hpub, hk, Nat.pos_iff_ne_zero.mp hn]

/-- Claim C3 witness. -/
theorem publish_success_postcondition_witness :
    publish_campaign_results 7 1 s1 sampleDigest = TxResult.ok
      { s1 with merkle_root := sampleDigest
                is_published := true
                encrypted_responses := []
                updated_at := 7 } :=
  publish_success_postcondition 7 1 s1 sampleDigest rfl (by decide) rfl

/-- Claim C4 counterexample: on an already-sealed record a further
`publish_campaign_results` from a non-authority caller (key 2, stored
authority 1) fails with `Unauthorized`, not `AlreadySealed`
(`CampaignAlreadyPublished`) — the authority check runs first, so the
error is not `AlreadySealed` "regardless of the caller's identity". -/
theorem publish_resealing_counterexample :
    publish_campaign_results 0 2 sealedZeroRoot sampleDigest =
      TxResult.err CampaignError.unauthorized sealedZeroRoot ∧
    CampaignError.unauthorized ≠ CampaignError.campaignAlreadyPublished ∧
    sealedZeroRoot.is_published = true :=
  ⟨rfl, by decide, rfl⟩

/-- Claim C4 (amended): a further `publish_campaign_results` on a sealed
record always fails and leaves the record unchanged, but the error code
depends on the caller: `AlreadySealed` (`CampaignAlreadyPublished`) when
the caller is the stored authority, `Unauthorized` otherwise. -/
theorem publish_resealing_fails (now : Int) (key : Pubkey)
    (s : SurveyCampaign) (root : Digest) (h : s.is_published = true) :
    publish_campaign_results now key s root =
      TxResult.err
        (if s.authority = key then CampaignError.campaignAlreadyPublished
          else CampaignError.unauthorized) s := by
  by_cases hk : s.authority = key
  · simp [publish_campaign_results, h, hk]
  · simp [publish_campaign_results, h, hk]

/-- Claim C4 witness: the authority-caller case on a concrete sealed
record. -/
theorem publish_resealing_witness :
    publish_campaign_results 0 1 sealedZeroRoot sampleDigest =
      TxResult.err
        (if sealedZeroRoot.authority = 1 then
          CampaignError.campaignAlreadyPublished
          else CampaignError.unauthorized) sealedZeroRoot :=
  publish_resealing_fails 0 1 sealedZeroRoot sampleDigest rfl

/-- Claim C6 counterexample: a batch append attempted by a non-authority
caller (key 2, stored authority 1) on a sealed record returns
`AlreadySealed` (`CampaignAlreadyPublished`), not `Unauthorized` — the
sealed check runs before the authority check in `submit_batch_responses`,
so a non-authority append does not always return `Unauthorized`. -/
theorem error_atomicity_counterexample :
    submit_batch_responses 0 2 sealedZeroRoot [sampleDigest] [samplePayload] =
      TxResult.err CampaignError.campaignAlreadyPublished sealedZeroRoot ∧
    CampaignError.campaignAlreadyPublished ≠ CampaignError.unauthorized ∧
    sealedZeroRoot.authority ≠ 2 :=
  ⟨rfl, by decide, by decide⟩

/-- Claim C6 (amended): every error return of the batch append, seal and
aggregate-root update happens before any mutation, so the returned state
equals the pre-state; a non-authority seal or aggregate update always
returns `Unauthorized`, and a non-authority batch append returns
`Unauthorized` whenever the record is unsealed (on a sealed record the
`AlreadySealed` check takes precedence), in each case with the record
unchanged. -/
theorem error_atomicity (now : Int) (key : Pubkey) (s : SurveyCampaign)
    (cs : List Digest) (ps : List Payload) (root : Digest)
    (f : UniversityPerformance) (e : CampaignError)
    (t : SurveyCampaign) (u : UniversityPerformance) :
    (submit_batch_responses now key s cs ps = TxResult.err e t → t = s) ∧
    (publish_campaign_results now key s root = TxResult.err e t → t = s) ∧
    (update_final_merkle_root now key f root = TxResult.err e u → u = f) ∧
    (s.authority ≠ key → s.is_published = false →
      submit_batch_responses now key s cs ps =
        TxResult.err CampaignError.unauthorized s) ∧
    (s.authority ≠ key →
      publish_campaign_results now key s root =
        TxResult.err CampaignError.unauthorized s) ∧
    (f.authority ≠ key →
      update_final_merkle_root now key f root =
        TxResult.err CampaignError.unauthorized f) := by
  refine ⟨fun h => ?_, fun h => ?_, fun h => ?_, fun h1 h2 => ?_,
    fun h1 => ?_, fun h1 => ?_⟩
  · unfold submit_batch_responses at h
    split_ifs at h
    · injection h with h1 h2; exact h2.symm
    · injection h with h1 h2; exact h2.symm
    · injection h with h1 h2; exact h2.symm
    · cases hx : checkedAddU32 s.total_responses (ps.length % 4294967296) <;>
        rw [hx] at h <;> simp at h
  · unfold publish_campaign_results at h
    split_ifs at h <;> injection h with h1 h2 <;> exact h2.symm
  · unfold update_final_merkle_root at h
    split_ifs at h <;> injection h with h1 h2 <;> exact h2.symm
  · simp [submit_batch_responses, h1, h2]
  · simp [publish_campaign_results, h1]
  · simp [update_final_merkle_root, h1]

/-- Claim C6 witness: each conjunct at concrete inputs. -/
theorem error_atomicity_witness :
    sealedZeroRoot = sealedZeroRoot ∧ uBase = uBase ∧
    submit_batch_responses 0 2 s0 [] [] =
      TxResult.err CampaignError.unauthorized s0 ∧
    publish_campaign_results 0 2 s0 sampleDigest =
      TxResult.err CampaignError.unauthorized s0 ∧
    update_final_merkle_root 0 2 uBase sampleDigest =
      TxResult.err CampaignError.unauthorized uBase :=
  ⟨(error_atomicity 0 2 sealedZeroRoot [] [] sampleDigest uBase
      CampaignError.campaignAlreadyPublished sealedZeroRoot uBase).1 rfl,
   (error_atomicity 0 2 sealedZeroRoot [] [] sampleDigest uBase
      CampaignError.unauthorized sealedZeroRoot uBase).2.2.1 rfl,
   (error_atomicity 0 2 s0 [] [] sampleDigest uBase
      CampaignError.unauthorized s0 uBase).2.2.2.1 (by decide) rfl,
   (error_atomicity 0 2 s0 [] [] sampleDigest uBase
      CampaignError.unauthorized s0 uBase).2.2.2.2.1 (by decide),
   (error_atomicity 0 2 s0 [] [] sampleDigest uBase
      CampaignError.unauthorized s0 uBase).2.2.2.2.2 (by decide)⟩

/-- Claim C7 counterexample: an authorized batch of one response on an
unsealed record whose counter is at `u32::MAX` does not surface any error
code — `checked_add` yields `None` and the `unwrap` aborts the whole
transaction (`TxResult.abort`); the program's `CampaignError` enum has no
`CounterOverflow` variant at all, so no such error can be returned. -/
theorem overflow_abort_counterexample :
    submit_batch_responses 0 1 fullSample [sampleDigest] [samplePayload] =
      TxResult.abort
        { fullSample with commitments := [sampleDigest]
                          encrypted_responses := [samplePayload] } ∧
    commitTx fullSample
      (submit_batch_responses 0 1 fullSample [sampleDigest] [samplePayload]) =
      fullSample :=
  ⟨rfl, rfl⟩

/-- Claim C7 (amended): when an authorized, well-formed batch would push
`total_responses` past `u32::MAX`, the code neither wraps nor clamps:
`checked_add` returns `None` and `unwrap` aborts the transaction, so the
committed record is unchanged after rollback — but the failure is a
runtime abort, not a `CounterOverflow` error surfaced to the caller (the
program defines no such error code). -/
theorem overflow_abort (now : Int) (key : Pubkey) (s : SurveyCampaign)
    (cs : List Digest) (ps : List Payload) (hpub : s.is_published = false)
    (hk : s.authority = key) (hlen : cs.length = ps.length)
    (hb : ps.length < 4294967296)
    (hov : u32Max < s.total_responses + ps.length) :
    submit_batch_responses now key s cs ps =
      TxResult.abort
        { s with commitments := s.commitments ++ cs
                 encrypted_responses := s.encrypted_responses ++ ps } ∧
    commitTx s (submit_batch_responses now key s cs ps) = s := by
  have habort : submit_batch_responses now key s cs ps =
      TxResult.abort
        { s with commitments := s.commitments ++ cs
                 encrypted_responses := s.encrypted_responses ++ ps } := by
    simp [submit_batch_responses, checkedAddU32, hpub, hk, hlen,
      Nat.mod_eq_of_lt hb, Nat.not_le.mpr hov]
  exact ⟨habort, by rw [habort]; rfl⟩

/-- Claim C7 witness. -/
theorem overflow_abort_witness :
    submit_batch_responses 3 1 fullSample [sampleDigest] [samplePayload] =
      TxResult.abort
        { fullSample with
            commitments := fullSample.commitments ++ [sampleDigest]
            encrypted_responses :=
              fullSample.encrypted_responses ++ [samplePayload] } ∧
    commitTx fullSample
      (submit_batch_responses 3 1 fullSample [sampleDigest] [samplePayload]) =
      fullSample :=
  overflow_abort 3 1 fullSample [sampleDigest] [samplePayload] rfl rfl rfl
    (by decide) (by decide)

/-- Claim C1: in every campaign state reachable by `create_campaign`,
`submit_batch_responses` and `publish_campaign_results`,
`total_responses` equals the number of stored commitments; while
unsealed the encrypted-response and commitment collections have equal
length; once sealed the encrypted responses are empty. -/
theorem ledger_collection_invariant (s : SurveyCampaign) (h : Reach s) :
    campaignInvariant s := by
  induction h with
  | create now key cid sem ct bk ek s hc =>
      unfold create_campaign at hc
      split_ifs at hc <;> simp at hc
      subst hc
      exact ⟨rfl, fun _ => rfl, fun hpub => by simp at hpub⟩
  | batch s now key cs ps s' hr hcs hps hok ih =>
      obtain ⟨i1, i2, i3⟩ := ih
      unfold submit_batch_responses at hok
      split_ifs at hok with h1 h2 h3
      cases hx : checkedAddU32 s.total_responses (ps.length % 4294967296) with
      | none => rw [hx] at hok; simp at hok
      | some total =>
          rw [hx] at hok
          simp only [TxResult.ok.injEq] at hok
          subst hok
          unfold checkedAddU32 at hx
          split_ifs at hx with hle
          · simp only [Option.some.injEq] at hx
            subst hx
            have h3' : cs.length = ps.length := not_not.mp h3
            have hpub : s.is_published = false := by simpa using h1
            have hmod : ps.length % 4294967296 = ps.length :=
              Nat.mod_eq_of_lt hps
            refine ⟨?_, fun _ => ?_, fun hq => ?_⟩
            · simp only [List.length_append]
              omega
            · have := i2 hpub
              simp only [List.length_append]
              omega
            · exact absurd (by simpa using hq) h1
  | publish s now key root s' hr hok ih =>
      obtain ⟨i1, i2, i3⟩ := ih
      unfold publish_campaign_results at hok
      split_ifs at hok with h1 h2 h3
      simp only [TxResult.ok.injEq] at hok
      subst hok
      exact ⟨i1, fun hq => by simp at hq, fun _ => rfl⟩

/-- Claim C1 witness: the invariant at a concrete reachable state (one
authorized batch of one response after creation). -/
theorem ledger_collection_invariant_witness : campaignInvariant s1 :=
  ledger_collection_invariant s1
    (Reach.batch s0 0 1 [sampleDigest] [samplePayload] s1
      (Reach.create 0 1 "c" "s" 0 [] [] s0 rfl) (by decide) (by decide) rfl)

/-- Claim C5 counterexample: `publish_campaign_results` stores the
supplied root verbatim without checking it against zero, so the authority
can seal a record with the all-zero root.  The resulting state is
reachable (create, one authorized batch, publish with the zero root), is
sealed, and has an all-zero `merkle_root` — refuting the "never all-zero
once sealed" direction of the claimed equivalence. -/
theorem sealed_zero_root_counterexample :
    Reach sealedZeroRoot ∧ sealedZeroRoot.is_published = true ∧
      sealedZeroRoot.merkle_root = zeroDigest :=
  ⟨Reach.publish s1 0 1 zeroDigest sealedZeroRoot
      (Reach.batch s0 0 1 [sampleDigest] [samplePayload] s1
        (Reach.create 0 1 "c" "s" 0 [] [] s0 rfl) (by decide) (by decide) rfl)
      rfl,
    rfl, rfl⟩

/-- Claim C5 (amended): in every reachable state, while the record is
unsealed its root is the all-zero digest (`create_campaign` zeroes it and
`submit_batch_responses` never touches it); the converse does not hold,
because publishing stores the authority-supplied root verbatim, which may
itself be all-zero. -/
theorem unsealed_root_zero (s : SurveyCampaign) (h : Reach s)
    (hpub : s.is_published = false) : s.merkle_root = zeroDigest := by
  revert hpub
  induction h with
  | create now key cid sem ct bk ek s hc =>
      intro _
      unfold create_campaign at hc
      split_ifs at hc <;> simp at hc
      subst hc
      rfl
  | batch s now key cs ps s' hr hcs hps hok ih =>
      intro _
      unfold submit_batch_responses at hok
      split_ifs at hok with h1 h2 h3
      cases hx : checkedAddU32 s.total_responses (ps.length % 4294967296) with
      | none => rw [hx] at hok; simp at hok
      | some total =>
          rw [hx] at hok
          simp only [TxResult.ok.injEq] at hok
          subst hok
          exact ih (by simpa using h1)
  | publish s now key root s' hr hok ih =>
      intro hpub'
      unfold publish_campaign_results at hok
      split_ifs at hok with h1 h2 h3
      simp only [TxResult.ok.injEq] at hok
      subst hok
      simp at hpub'

/-- Claim C5 witness: the amended claim at the freshly created record. -/
theorem unsealed_root_zero_witness : s0.merkle_root = zeroDigest :=
  unsealed_root_zero s0 (Reach.create 0 1 "c" "s" 0 [] [] s0 rfl) rfl

/-- Claim C8: `calculate_size_for_responses n` is `BASE_LEN` plus `n`
times the 256-byte payload width plus 32-byte commitment width, and
`calculate_size_after_publishing n` is `BASE_LEN` plus `n` times the
commitment width; both are monotonically non-decreasing in `n`, and for
`n > 0` the post-publish size is strictly smaller than the pre-publish
size. -/
theorem capacity_sizing_contract (n m : Nat) :
    SurveyCampaign.calculate_size_for_responses n =
      SurveyCampaign.BASE_LEN + n * (256 + 32) ∧
    SurveyCampaign.calculate_size_after_publishing n =
      SurveyCampaign.BASE_LEN + n * 32 ∧
    (n ≤ m →
      SurveyCampaign.calculate_size_for_responses n ≤
        SurveyCampaign.calculate_size_for_responses m ∧
      SurveyCampaign.calculate_size_after_publishing n ≤
        SurveyCampaign.calculate_size_after_publishing m) ∧
    (0 < n →
      SurveyCampaign.calculate_size_after_publishing n <
        SurveyCampaign.calculate_size_for_responses n) := by
  unfold SurveyCampaign.calculate_size_for_responses
    SurveyCampaign.calculate_size_after_publishing
  exact ⟨rfl, rfl, fun h => ⟨by omega, by omega⟩, fun h => by omega⟩

/-- Claim C8 witness: the sizing facts at `n = 1`, `m = 2`. -/
theorem capacity_sizing_contract_witness :
    (SurveyCampaign.calculate_size_for_responses 1 ≤
        SurveyCampaign.calculate_size_for_responses 2 ∧
      SurveyCampaign.calculate_size_after_publishing 1 ≤
        SurveyCampaign.calculate_size_after_publishing 2) ∧
    SurveyCampaign.calculate_size_after_publishing 1 <
      SurveyCampaign.calculate_size_for_responses 1 :=
  ⟨(capacity_sizing_contract 1 2).2.2.1 (by decide),
   (capacity_sizing_contract 1 2).2.2.2 (by decide)⟩

/-- Claim C9 (spec-modelled `submit_response`): the single-response
append accepts a submission from any caller — the key is universally
quantified and never compared with the stored authority — on an unsealed
record below the fixed cap of 10, fails `RecordFull` once the cap is
reached, and fails `AlreadySealed` on a sealed record. -/
theorem single_response_append_mode (now : Int) (key : Pubkey)
    (s : SurveyCampaign) (c : Digest) (p : Payload) :
    (s.is_published = true →
      submit_response now key s c p =
        Except.error SingleAppendError.alreadySealed) ∧
    (s.is_published = false → maxResponsesPerRecord ≤ s.total_responses →
      submit_response now key s c p =
        Except.error SingleAppendError.recordFull) ∧
    (s.is_published = false → s.total_responses < maxResponsesPerRecord →
      submit_response now key s c p = Except.ok
        { s with commitments := s.commitments ++ [c]
                 encrypted_responses := s.encrypted_responses ++ [p]
                 total_responses := s.total_responses + 1
                 updated_at := now }) := by
  refine ⟨fun h1 => ?_, fun h1 h2 => ?_, fun h1 h2 => ?_⟩
  · simp [submit_response, h1]
  · simp [submit_response, h1, h2]
  · simp [submit_response, h1, Nat.not_le.mpr h2]

/-- Claim C9 witness: a non-authority caller (key 42, stored authority 1)
succeeds on an unsealed record below the cap; the sealed and full cases at
concrete inputs. -/
theorem single_response_append_mode_witness :
    submit_response 0 42 s0 sampleDigest samplePayload = Except.ok
      { s0 with commitments := s0.commitments ++ [sampleDigest]
                encrypted_responses := s0.encrypted_responses ++ [samplePayload]
                total_responses := s0.total_responses + 1
                updated_at := 0 } ∧
    submit_response 0 42 sealedZeroRoot sampleDigest samplePayload =
      Except.error SingleAppendError.alreadySealed ∧
    submit_response 0 42 fullSample sampleDigest samplePayload =
      Except.error SingleAppendError.recordFull :=
  ⟨(single_response_append_mode 0 42 s0 sampleDigest samplePayload).2.2 rfl
      (by decide),
   (single_response_append_mode 0 42 sealedZeroRoot sampleDigest
      samplePayload).1 rfl,
   (single_response_append_mode 0 42 fullSample sampleDigest
      samplePayload).2.1 rfl (by decide)⟩

/-- Claim C10: an authorized `update_final_merkle_root` modifies only the
final root and the timestamp, leaving `authority`, `university_id`,
`total_campaigns` and `created_at` unchanged; and since `init_final_root`
sets `total_campaigns := 0` and no operation ever changes it,
`total_campaigns = 0` in every reachable aggregate-root state. -/
theorem aggregate_root_frame :
    (∀ (now : Int) (key : Pubkey) (f : UniversityPerformance)
        (root : Digest) (f' : UniversityPerformance),
        update_final_merkle_root now key f root = TxResult.ok f' →
        f'.authority = f.authority ∧ f'.university_id = f.university_id ∧
          f'.total_campaigns = f.total_campaigns ∧
          f'.created_at = f.created_at ∧
          f'.final_merkle_root = root ∧ f'.updated_at = now) ∧
    (∀ f : UniversityPerformance, ReachU f → f.total_campaigns = 0) := by
  constructor
  · intro now key f root f' hok
    unfold update_final_merkle_root at hok
    split_ifs at hok with h1
    simp only [TxResult.ok.injEq] at hok
    subst hok
    exact ⟨rfl, rfl, rfl, rfl, rfl, rfl⟩
  · intro f h
    induction h with
    | init now key uid => rfl
    | update f now key root f' hr hok ih =>
        unfold update_final_merkle_root at hok
        split_ifs at hok with h1
        simp only [TxResult.ok.injEq] at hok
        subst hok
        exact ih

/-- Claim C10 witness: the frame at a concrete authorized update, and the
`total_campaigns = 0` invariant at a concrete reachable state. -/
theorem aggregate_root_frame_witness :
    (uNext.authority = uBase.authority ∧
      uNext.university_id = uBase.university_id ∧
      uNext.total_campaigns = uBase.total_campaigns ∧
      uNext.created_at = uBase.created_at ∧
      uNext.final_merkle_root = sampleDigest ∧ uNext.updated_at = 5) ∧
    uBase.total_campaigns = 0 :=
  ⟨aggregate_root_frame.1 5 1 uBase sampleDigest uNext rfl,
   aggregate_root_frame.2 uBase (ReachU.init 0 1 "u")⟩
